import Mathlib

/-!
# tri.c: a triangle drawn through the gallium pipe interface

A shallow embedding of `src/gallium/trivial/tri.c`.

* The program's own functions (`init_prog`, `draw`, `close_prog`, `main`) are
  embedded statement by statement.
* The graphics library the file calls into is not part of the source.  Every
  call into it is recorded as a `Call` value; a call that creates an object
  returns a fresh non-NULL handle.  The embedding assumes the library calls
  succeed (no NULL returns).
* A `float` is modelled by the rational number it stands for.  A literal that
  is only stored (vertex data, clear colour) is the rational its digits denote
  (`0.9f` is `9/10`).  The arithmetic of the viewport block is binary32: every
  conversion of an integer constant to `float` and every `float` operation
  rounds its exact result with `to_float`.
* The preprocessor constants of the file are the fields of `Config`; the
  values the file gives them are `config`.
-/

namespace Tri

/-! ## Data model -/

/-- A pointer to a library object or to heap memory; `0` is the NULL pointer. -/
abbrev Handle := Nat

/-- The NULL pointer. -/
def NULL : Handle := 0

/-- The value of `sizeof(float)`. -/
def sizeof_float : Nat := 4

/-- Modelled from the spec: the named constants of the library headers
(`pipe/p_defines.h`, `pipe/p_format.h`, `pipe/p_shader_tokens.h`) that tri.c
mentions.  The headers are not part of the source, so the constants are kept
symbolic; `zero` is the value a `memset(.., 0, ..)` leaves in a field. -/
inductive PipeConst where
  | zero
  | PIPE_BUFFER_USAGE_VERTEX
  | PIPE_BUFFER_USAGE_GPU_WRITE
  | PIPE_TEXTURE_2D
  | PIPE_TEXTURE_USAGE_RENDER_TARGET
  | PIPE_FORMAT_B8G8R8A8_UNORM
  | PIPE_FORMAT_R32G32B32A32_FLOAT
  | PIPE_MASK_RGBA
  | PIPE_WINDING_CW
  | PIPE_WINDING_NONE
  | TGSI_SEMANTIC_POSITION
  | TGSI_SEMANTIC_COLOR
  | PIPE_CLEAR_COLOR
  | PIPE_PRIM_TRIANGLES
  | PIPE_FLUSH_RENDER_CACHE
  deriving DecidableEq, Repr

open PipeConst

/-- Modelled from the spec: the number of bytes one element of a pipe format
occupies, as the format names say (`R32G32B32A32_FLOAT` is four 32-bit floats,
`B8G8R8A8_UNORM` is four 8-bit channels).  The format table lives in the
library. -/
def format_size : PipeConst → Nat
  | PIPE_FORMAT_R32G32B32A32_FLOAT => 4 * sizeof_float
  | PIPE_FORMAT_B8G8R8A8_UNORM => 4
  | _ => 0

/-- Modelled from the spec: `struct pipe_texture` of `pipe/p_state.h`, reduced
to the fields tri.c writes in its template. -/
structure pipe_texture where
  target : PipeConst
  format : PipeConst
  width0 : Nat
  height0 : Nat
  depth0 : Nat
  last_level : Nat
  tex_usage : PipeConst

/-- Modelled from the spec: one render-target entry of `struct pipe_blend_state`. -/
structure pipe_rt_blend_state where
  colormask : PipeConst

/-- Modelled from the spec: `struct pipe_blend_state`, reduced to the `rt` array. -/
structure pipe_blend_state where
  rt : Nat → pipe_rt_blend_state

/-- Modelled from the spec: `struct pipe_depth_stencil_alpha_state`; tri.c only
zeroes it, so no field is kept. -/
structure pipe_depth_stencil_alpha_state where
  deriving DecidableEq

/-- Modelled from the spec: `struct pipe_rasterizer_state`, reduced to the
fields tri.c writes. -/
structure pipe_rasterizer_state where
  front_winding : PipeConst
  cull_mode : PipeConst
  gl_rasterization_rules : Nat

/-- Modelled from the spec: `struct pipe_viewport_state`: `float scale[4]` and
`float translate[4]`. -/
structure pipe_viewport_state where
  scale : Fin 4 → ℚ
  translate : Fin 4 → ℚ

/-- Modelled from the spec: `struct pipe_framebuffer_state`, reduced to the
fields tri.c writes; `cbufs` is the array of colour-buffer surfaces. -/
structure pipe_framebuffer_state where
  width : Nat
  height : Nat
  nr_cbufs : Nat
  cbufs : Nat → Handle

/-- Modelled from the spec: `struct pipe_vertex_element`, reduced to the fields
tri.c writes. -/
structure pipe_vertex_element where
  src_offset : Nat
  instance_divisor : Nat
  vertex_buffer_index : Nat
  src_format : PipeConst

/-- The `struct program` of tri.c. -/
structure program where
  screen : Handle
  pipe : Handle
  cso : Handle
  blend : pipe_blend_state
  depthstencil : pipe_depth_stencil_alpha_state
  rasterizer : pipe_rasterizer_state
  viewport : pipe_viewport_state
  framebuffer : pipe_framebuffer_state
  velem : Fin 2 → pipe_vertex_element
  vs : Handle
  fs : Handle
  clear_color : Fin 4 → ℚ
  vbuf : Handle
  target : Handle

/-- The all-zero blend state (`memset(&p->blend, 0, ..)`). -/
def pipe_blend_state.zeroed : pipe_blend_state := ⟨fun _ => ⟨zero⟩⟩

/-- The all-zero rasterizer state. -/
def pipe_rasterizer_state.zeroed : pipe_rasterizer_state := ⟨zero, zero, 0⟩

/-- The all-zero viewport state. -/
def pipe_viewport_state.zeroed : pipe_viewport_state := ⟨fun _ => 0, fun _ => 0⟩

/-- The all-zero framebuffer state. -/
def pipe_framebuffer_state.zeroed : pipe_framebuffer_state := ⟨0, 0, 0, fun _ => NULL⟩

/-- The all-zero vertex element. -/
def pipe_vertex_element.zeroed : pipe_vertex_element := ⟨0, 0, 0, zero⟩

/-- The all-zero texture template (`memset(&tmplt, 0, sizeof(tmplt))`). -/
def pipe_texture.zeroed : pipe_texture := ⟨zero, zero, 0, 0, 0, 0, zero⟩

/-- The all-zero `struct program`, as `CALLOC_STRUCT(program)` hands it out. -/
def program.zeroed : program :=
  { screen := NULL, pipe := NULL, cso := NULL
    blend := pipe_blend_state.zeroed
    depthstencil := {}
    rasterizer := pipe_rasterizer_state.zeroed
    viewport := pipe_viewport_state.zeroed
    framebuffer := pipe_framebuffer_state.zeroed
    velem := fun _ => pipe_vertex_element.zeroed
    vs := NULL, fs := NULL
    clear_color := fun _ => 0
    vbuf := NULL, target := NULL }

/-- The preprocessor constants defined at the top of tri.c. -/
structure Config where
  USE_TRACE : Bool
  WIDTH : Nat
  HEIGHT : Nat
  NEAR : Nat
  FAR : Nat
  FLIP : Bool

/-- The values tri.c gives its preprocessor constants. -/
def config : Config :=
  { USE_TRACE := false, WIDTH := 300, HEIGHT := 300, NEAR := 30, FAR := 1000, FLIP := false }

/-! ## Calls into the library -/

/-- One call made by tri.c into the library (or the allocator), with the
arguments passed and, for a call that returns an object, the handle returned
(`ret`). -/
inductive Call where
  | CALLOC_STRUCT (ret : Handle)
  | FREE (ptr : Handle)
  | null_sw_create (ret : Handle)
  | softpipe_create_screen (winsys : Handle) (ret : Handle)
  | trace_screen_create (screen : Handle) (ret : Handle)
  | context_create (screen : Handle) (priv : Handle) (ret : Handle)
  | cso_create_context (pipe : Handle) (ret : Handle)
  | pipe_buffer_create (screen : Handle) (alignment : Nat) (usage : PipeConst) (size : Nat)
      (ret : Handle)
  | pipe_buffer_write (screen : Handle) (buf : Handle) (offset : Nat) (size : Nat)
      (data : List ℚ)
  | texture_create (screen : Handle) (tmplt : pipe_texture) (ret : Handle)
  | get_tex_surface (screen : Handle) (texture : Handle) (face level zslice : Nat)
      (usage : PipeConst) (ret : Handle)
  | util_make_vertex_passthrough_shader (pipe : Handle) (num_attribs : Nat)
      (semantic_names : List PipeConst) (semantic_indexes : List Nat) (ret : Handle)
  | util_make_fragment_passthrough_shader (pipe : Handle) (ret : Handle)
  | cso_release_all (cso : Handle)
  | delete_vs_state (pipe : Handle) (vs : Handle)
  | delete_fs_state (pipe : Handle) (fs : Handle)
  | pipe_surface_reference (old : Handle) (surf : Handle)
  | pipe_texture_reference (old : Handle) (tex : Handle)
  | pipe_buffer_reference (old : Handle) (buf : Handle)
  | cso_destroy_context (cso : Handle)
  | pipe_destroy (pipe : Handle)
  | screen_destroy (screen : Handle)
  | cso_set_framebuffer (cso : Handle) (fb : pipe_framebuffer_state)
  | clear (pipe : Handle) (buffers : PipeConst) (rgba : Fin 4 → ℚ) (depth : ℚ) (stencil : Nat)
  | cso_set_blend (cso : Handle) (blend : pipe_blend_state)
  | cso_set_depth_stencil_alpha (cso : Handle) (dsa : pipe_depth_stencil_alpha_state)
  | cso_set_rasterizer (cso : Handle) (rast : pipe_rasterizer_state)
  | cso_set_viewport (cso : Handle) (vp : pipe_viewport_state)
  | cso_set_fragment_shader_handle (cso : Handle) (fs : Handle)
  | cso_set_vertex_shader_handle (cso : Handle) (vs : Handle)
  | cso_set_vertex_elements (cso : Handle) (count : Nat) (velem : Fin 2 → pipe_vertex_element)
  | util_draw_vertex_buffer (pipe : Handle) (vbuf : Handle) (offset : Nat) (prim_type : PipeConst)
      (num_verts : Nat) (num_attribs : Nat)
  | flush (pipe : Handle) (flags : PipeConst) (fence : Handle)
  | debug_dump_surface_bmp (pipe : Handle) (filename : String) (surface : Handle)

/-- The result of running a piece of the program: the value it computes, the
number of objects handed out so far, and the calls it made, in order. -/
structure Out (α : Type) where
  val : α
  next : Nat
  calls : List Call

/-- A piece of the program: started with `n` objects handed out so far, it
yields an `Out`. -/
def Lib (α : Type) : Type := Nat → Out α

/-- Do nothing and return `a`. -/
def Lib.pure {α : Type} (a : α) : Lib α := fun n => ⟨a, n, []⟩

/-- Run `m`, then `f` on its value; the calls of `f` follow those of `m`. -/
def Lib.bind {α β : Type} (m : Lib α) (f : α → Lib β) : Lib β := fun n =>
  let r := m n
  let s := f r.val r.next
  ⟨s.val, s.next, r.calls ++ s.calls⟩

instance : Monad Lib where
  pure := Lib.pure
  bind := Lib.bind

/-- Make a call that returns no object. -/
def call (c : Call) : Lib Unit := fun n => ⟨(), n, [c]⟩

/-- Make a call that returns a new object: its handle is fresh and not NULL. -/
def create (mk : Handle → Call) : Lib Handle := fun n => ⟨n + 1, n + 1, [mk (n + 1)]⟩

/-- The library's `pipe_*_reference(&ptr, new)`: drops the reference held in
`*ptr` (`old`), stores `new` there, and the value now in `*ptr` is returned. -/
def reference (mk : Handle → Handle → Call) (old new : Handle) : Lib Handle :=
  fun n => ⟨new, n, [mk old new]⟩

/-! ## Binary32 arithmetic -/

/-- The integer nearest to `q`; a tie goes to the even neighbour. -/
def round_even (q : ℚ) : ℤ :=
  if q - ⌊q⌋ < 1 / 2 then ⌊q⌋
  else if 1 / 2 < q - ⌊q⌋ then ⌊q⌋ + 1
  else if ⌊q⌋ % 2 = 0 then ⌊q⌋ else ⌊q⌋ + 1

/-- The binary exponent a `float` uses for the value `x`: the `e` with
`2 ^ e ≤ |x| < 2 ^ (e + 1)`, and -126 for the subnormal range below. -/
def float_exponent (x : ℚ) : ℤ := max (Int.log 2 |x|) (-126)

/-- The `float` (IEEE 754 binary32, round to nearest, ties to even) that the
exact value `x` becomes: `x` rounded to a multiple of `2 ^ (e - 23)`, a
significand of 24 bits.  Overflow to infinity (from `2 ^ 128` on) is not
modelled: a C integer constant is below `2 ^ 64` and the viewport block adds
two of them at most. -/
def to_float (x : ℚ) : ℚ :=
  (round_even (x / 2 ^ (float_exponent x - 23)) : ℚ) * 2 ^ (float_exponent x - 23)

/-- The C conversion `(float)n` of an integer constant. -/
def float_of_nat (n : Nat) : ℚ := to_float (n : ℚ)

/-- The C `float` addition `a + b`. -/
def fadd (a b : ℚ) : ℚ := to_float (a + b)

/-- The C `float` subtraction `a - b`. -/
def fsub (a b : ℚ) : ℚ := to_float (a - b)

/-- The C `float` multiplication `a * b`. -/
def fmul (a b : ℚ) : ℚ := to_float (a * b)

/-- The C `float` division `a / b`. -/
def fdiv (a b : ℚ) : ℚ := to_float (a / b)

/-! ## The program -/

/-- The initialiser of `float vertices[4][2][4]` in `init_prog`: the position
and colour of the three vertices the source lists (`0.9f` is `9/10`). -/
def vertices_init : List (List (List ℚ)) :=
  [ [ [0, -9/10, 0, 1],
      [1, 0, 0, 1] ],
    [ [-9/10, 9/10, 0, 1],
      [0, 1, 0, 1] ],
    [ [9/10, 9/10, 0, 1],
      [0, 0, 1, 1] ] ]

/-- C aggregate initialisation of an array declared with `n` elements: the
elements the initialiser does not list are zero. -/
def array_init {α : Type} (n : Nat) (z : α) (init : List α) : List α :=
  (init ++ List.replicate (n - init.length) z).take n

/-- The local array `float vertices[4][2][4]` of `init_prog`, as declared and
initialised. -/
def vertices : List (List (List ℚ)) :=
  array_init 4 (List.replicate 2 (List.replicate 4 0)) vertices_init

/-- The value of `sizeof(vertices)` for `float vertices[4][2][4]`. -/
def sizeof_vertices : Nat := 4 * 2 * 4 * sizeof_float

/-- The function `init_prog` of tri.c; the struct `*p` is passed in and the
struct as `init_prog` leaves it is returned. -/
def init_prog (c : Config) (p : program) : Lib program := do
  let mut p := p
  -- create the software rasterizer
  let winsys ← create Call.null_sw_create
  p := { p with screen := (← create (Call.softpipe_create_screen winsys)) }
  if c.USE_TRACE then
    p := { p with screen := (← create (Call.trace_screen_create p.screen)) }
  p := { p with pipe := (← create (Call.context_create p.screen NULL)) }
  p := { p with cso := (← create (Call.cso_create_context p.pipe)) }
  -- set clear color
  p := { p with clear_color := Function.update p.clear_color 0 (3 / 10) }
  p := { p with clear_color := Function.update p.clear_color 1 (1 / 10) }
  p := { p with clear_color := Function.update p.clear_color 2 (3 / 10) }
  p := { p with clear_color := Function.update p.clear_color 3 1 }
  -- vertex buffer
  p := { p with vbuf := (← create
    (Call.pipe_buffer_create p.screen 16 PIPE_BUFFER_USAGE_VERTEX sizeof_vertices)) }
  call (Call.pipe_buffer_write p.screen p.vbuf 0 sizeof_vertices vertices.flatten.flatten)
  -- render target texture
  let mut tmplt := pipe_texture.zeroed
  tmplt := { tmplt with target := PIPE_TEXTURE_2D }
  tmplt := { tmplt with format := PIPE_FORMAT_B8G8R8A8_UNORM }
  tmplt := { tmplt with width0 := c.WIDTH }
  tmplt := { tmplt with height0 := c.HEIGHT }
  tmplt := { tmplt with depth0 := 1 }
  tmplt := { tmplt with last_level := 0 }
  tmplt := { tmplt with tex_usage := PIPE_TEXTURE_USAGE_RENDER_TARGET }
  p := { p with target := (← create (Call.texture_create p.screen tmplt)) }
  -- disabled blending/masking
  p := { p with blend := pipe_blend_state.zeroed }
  p := { p with blend.rt := Function.update p.blend.rt 0 { colormask := PIPE_MASK_RGBA } }
  -- no-op depth/stencil/alpha
  p := { p with depthstencil := {} }
  -- rasterizer
  p := { p with rasterizer := pipe_rasterizer_state.zeroed }
  p := { p with rasterizer.front_winding := PIPE_WINDING_CW }
  p := { p with rasterizer.cull_mode := PIPE_WINDING_NONE }
  p := { p with rasterizer.gl_rasterization_rules := 1 }
  -- drawing destination
  p := { p with framebuffer := pipe_framebuffer_state.zeroed }
  p := { p with framebuffer.width := c.WIDTH }
  p := { p with framebuffer.height := c.HEIGHT }
  p := { p with framebuffer.nr_cbufs := 1 }
  let surf ← create
    (Call.get_tex_surface p.screen p.target 0 0 0 PIPE_BUFFER_USAGE_GPU_WRITE)
  p := { p with framebuffer.cbufs := Function.update p.framebuffer.cbufs 0 surf }
  -- viewport, depth isn't really needed
  let x : ℚ := float_of_nat 0
  let y : ℚ := float_of_nat 0
  let z : ℚ := float_of_nat c.FAR
  let half_width : ℚ := fdiv (float_of_nat c.WIDTH) 2
  let half_height : ℚ := fdiv (float_of_nat c.HEIGHT) 2
  let half_depth : ℚ := fdiv (fsub (float_of_nat c.FAR) (float_of_nat c.NEAR)) 2
  let mut scale : ℚ := 0
  let mut bias : ℚ := 0
  if c.FLIP then
    scale := -1
    bias := float_of_nat c.HEIGHT
  else
    scale := 1
    bias := 0
  p := { p with viewport.scale := Function.update p.viewport.scale 0 half_width }
  p := { p with viewport.scale := Function.update p.viewport.scale 1 (fmul half_height scale) }
  p := { p with viewport.scale := Function.update p.viewport.scale 2 half_depth }
  p := { p with viewport.scale := Function.update p.viewport.scale 3 1 }
  p := { p with viewport.translate := Function.update p.viewport.translate 0 (fadd half_width x) }
  p := { p with viewport.translate :=
    (Function.update p.viewport.translate 1 (fadd (fmul (fadd half_height y) scale) bias)) }
  p := { p with viewport.translate := Function.update p.viewport.translate 2 (fadd half_depth z) }
  p := { p with viewport.translate := Function.update p.viewport.translate 3 0 }
  -- vertex elements state
  p := { p with velem := fun _ => pipe_vertex_element.zeroed }
  p := { p with velem := (Function.update p.velem 0
    { p.velem 0 with src_offset := 0 * 4 * sizeof_float }) }
  p := { p with velem := Function.update p.velem 0 { p.velem 0 with instance_divisor := 0 } }
  p := { p with velem := Function.update p.velem 0 { p.velem 0 with vertex_buffer_index := 0 } }
  p := { p with velem := (Function.update p.velem 0
    { p.velem 0 with src_format := PIPE_FORMAT_R32G32B32A32_FLOAT }) }
  p := { p with velem := (Function.update p.velem 1
    { p.velem 1 with src_offset := 1 * 4 * sizeof_float }) }
  p := { p with velem := Function.update p.velem 1 { p.velem 1 with instance_divisor := 0 } }
  p := { p with velem := Function.update p.velem 1 { p.velem 1 with vertex_buffer_index := 0 } }
  p := { p with velem := (Function.update p.velem 1
    { p.velem 1 with src_format := PIPE_FORMAT_R32G32B32A32_FLOAT }) }
  -- vertex shader
  let semantic_names := [TGSI_SEMANTIC_POSITION, TGSI_SEMANTIC_COLOR]
  let semantic_indexes := [0, 0]
  p := { p with vs := (← create
    (Call.util_make_vertex_passthrough_shader p.pipe 2 semantic_names semantic_indexes)) }
  -- fragment shader
  p := { p with fs := (← create (Call.util_make_fragment_passthrough_shader p.pipe)) }
  return p

/-- The function `close_prog` of tri.c; `ptr` is the pointer `p` and `p` the
struct it points to. -/
def close_prog (ptr : Handle) (p : program) : Lib Unit := do
  let mut p := p
  -- unset all state
  call (Call.cso_release_all p.cso)
  call (Call.delete_vs_state p.pipe p.vs)
  call (Call.delete_fs_state p.pipe p.fs)
  let surf ← reference Call.pipe_surface_reference (p.framebuffer.cbufs 0) NULL
  p := { p with framebuffer.cbufs := Function.update p.framebuffer.cbufs 0 surf }
  p := { p with target := (← reference Call.pipe_texture_reference p.target NULL) }
  p := { p with vbuf := (← reference Call.pipe_buffer_reference p.vbuf NULL) }
  call (Call.cso_destroy_context p.cso)
  call (Call.pipe_destroy p.pipe)
  call (Call.screen_destroy p.screen)
  call (Call.FREE ptr)

/-- The function `draw` of tri.c. -/
def draw (p : program) : Lib Unit := do
  -- set the render target
  call (Call.cso_set_framebuffer p.cso p.framebuffer)
  -- clear the render target
  call (Call.clear p.pipe PIPE_CLEAR_COLOR p.clear_color 0 0)
  -- set misc state we care about
  call (Call.cso_set_blend p.cso p.blend)
  call (Call.cso_set_depth_stencil_alpha p.cso p.depthstencil)
  call (Call.cso_set_rasterizer p.cso p.rasterizer)
  call (Call.cso_set_viewport p.cso p.viewport)
  -- shaders
  call (Call.cso_set_fragment_shader_handle p.cso p.fs)
  call (Call.cso_set_vertex_shader_handle p.cso p.vs)
  -- vertex element data
  call (Call.cso_set_vertex_elements p.cso 2 p.velem)
  call (Call.util_draw_vertex_buffer p.pipe p.vbuf 0 PIPE_PRIM_TRIANGLES 3 2)
  call (Call.flush p.pipe PIPE_FLUSH_RENDER_CACHE NULL)
  call (Call.debug_dump_surface_bmp p.pipe "result.bmp" (p.framebuffer.cbufs 0))

/-- The function `main` of tri.c: the value it returns and the calls it makes.
`CALLOC_STRUCT` returns the pointer `ptr` to a zeroed struct. -/
def main (argc : Int) (argv : List String) : Lib Int := do
  let _ := argc
  let _ := argv
  let ptr ← create Call.CALLOC_STRUCT
  let p ← init_prog config program.zeroed
  draw p
  close_prog ptr p
  return 0

/-! ## Reading a trace of calls -/

/-- Is the call a draw call? -/
def Call.isDraw : Call → Bool
  | .util_draw_vertex_buffer .. => true
  | _ => false

/-- Is the call a flush of the pipe context? -/
def Call.isFlush : Call → Bool
  | .flush .. => true
  | _ => false

/-- Is the call a dump of a surface to a bitmap file? -/
def Call.isDump : Call → Bool
  | .debug_dump_surface_bmp .. => true
  | _ => false

/-- Is the call a framebuffer bind, a clear, or a bind of a state object
(blend, depth/stencil/alpha, rasterizer, viewport, shaders, vertex elements)? -/
def Call.isSetup : Call → Bool
  | .cso_set_framebuffer .. => true
  | .clear .. => true
  | .cso_set_blend .. => true
  | .cso_set_depth_stencil_alpha .. => true
  | .cso_set_rasterizer .. => true
  | .cso_set_viewport .. => true
  | .cso_set_fragment_shader_handle .. => true
  | .cso_set_vertex_shader_handle .. => true
  | .cso_set_vertex_elements .. => true
  | _ => false

/-- Is the call the allocation of the program struct? -/
def Call.isAlloc : Call → Bool
  | .CALLOC_STRUCT .. => true
  | _ => false

/-- Is the call the `FREE` of a pointer? -/
def Call.isFree : Call → Bool
  | .FREE .. => true
  | _ => false

/-- Is the call the creation of the winsys, the first call of `init_prog`? -/
def Call.isWinsysCreate : Call → Bool
  | .null_sw_create .. => true
  | _ => false

/-- Is the call `cso_release_all`, the first call of `close_prog`? -/
def Call.isReleaseAll : Call → Bool
  | .cso_release_all .. => true
  | _ => false

/-- The non-NULL pointers among `hs`. -/
def live (hs : List Handle) : List Handle := hs.filter (fun h => h ≠ NULL)

/-- The objects a call hands to the program: the handle it returns. -/
def Call.acquires : Call → List Handle
  | .CALLOC_STRUCT r => [r]
  | .null_sw_create r => [r]
  | .softpipe_create_screen _ r => [r]
  | .trace_screen_create _ r => [r]
  | .context_create _ _ r => [r]
  | .cso_create_context _ r => [r]
  | .pipe_buffer_create _ _ _ _ r => [r]
  | .texture_create _ _ r => [r]
  | .get_tex_surface _ _ _ _ _ _ r => [r]
  | .util_make_vertex_passthrough_shader _ _ _ _ r => [r]
  | .util_make_fragment_passthrough_shader _ r => [r]
  | _ => []

/-- The objects a call gives up: what is freed, deleted or destroyed, and the
reference a `pipe_*_reference` call drops. -/
def Call.releases : Call → List Handle
  | .FREE ptr => live [ptr]
  | .delete_vs_state _ vs => [vs]
  | .delete_fs_state _ fs => [fs]
  | .pipe_surface_reference old _ => live [old]
  | .pipe_texture_reference old _ => live [old]
  | .pipe_buffer_reference old _ => live [old]
  | .cso_destroy_context cso => [cso]
  | .pipe_destroy pipe => [pipe]
  | .screen_destroy screen => [screen]
  | _ => []

/-- The objects a call works on without giving them up: the non-NULL handles
among its arguments, the released ones apart.  A framebuffer state passes its
`nr_cbufs` colour-buffer surfaces. -/
def Call.uses : Call → List Handle
  | .softpipe_create_screen winsys _ => live [winsys]
  | .trace_screen_create screen _ => live [screen]
  | .context_create screen priv _ => live [screen, priv]
  | .cso_create_context pipe _ => live [pipe]
  | .pipe_buffer_create screen _ _ _ _ => live [screen]
  | .pipe_buffer_write screen buf _ _ _ => live [screen, buf]
  | .texture_create screen _ _ => live [screen]
  | .get_tex_surface screen texture _ _ _ _ _ => live [screen, texture]
  | .util_make_vertex_passthrough_shader pipe _ _ _ _ => live [pipe]
  | .util_make_fragment_passthrough_shader pipe _ => live [pipe]
  | .cso_release_all cso => live [cso]
  | .delete_vs_state pipe _ => live [pipe]
  | .delete_fs_state pipe _ => live [pipe]
  | .pipe_surface_reference _ surf => live [surf]
  | .pipe_texture_reference _ tex => live [tex]
  | .pipe_buffer_reference _ buf => live [buf]
  | .cso_set_framebuffer cso fb => live (cso :: (List.range fb.nr_cbufs).map fb.cbufs)
  | .clear pipe _ _ _ _ => live [pipe]
  | .cso_set_blend cso _ => live [cso]
  | .cso_set_depth_stencil_alpha cso _ => live [cso]
  | .cso_set_rasterizer cso _ => live [cso]
  | .cso_set_viewport cso _ => live [cso]
  | .cso_set_fragment_shader_handle cso fs => live [cso, fs]
  | .cso_set_vertex_shader_handle cso vs => live [cso, vs]
  | .cso_set_vertex_elements cso _ _ => live [cso]
  | .util_draw_vertex_buffer pipe vbuf _ _ _ _ => live [pipe, vbuf]
  | .flush pipe _ fence => live [pipe, fence]
  | .debug_dump_surface_bmp pipe _ surface => live [pipe, surface]
  | _ => []

/-- Every object a call touches: acquired, used or released. -/
def Call.mentions (c : Call) : List Handle := c.acquires ++ c.uses ++ c.releases

/-- In the trace `t`, nothing is touched again once it has been released: for
every call `c` and every later call `d`, no object `c` releases is acquired,
used or released by `d`. -/
def NoTouchAfterRelease (t : List Call) : Prop :=
  t.Pairwise (fun c d => ∀ h ∈ c.releases, h ∉ d.mentions)

/-- The texture template `init_prog` fills in for the render target. -/
def target_template (c : Config) : pipe_texture :=
  { target := PIPE_TEXTURE_2D, format := PIPE_FORMAT_B8G8R8A8_UNORM
    width0 := c.WIDTH, height0 := c.HEIGHT, depth0 := 1, last_level := 0
    tex_usage := PIPE_TEXTURE_USAGE_RENDER_TARGET }

/-- The vertex buffers a trace creates: handle and size in bytes of every
`pipe_buffer_create` call. -/
def buffer_creates : List Call → List (Handle × Nat)
  | [] => []
  | Call.pipe_buffer_create _ _ _ size ret :: t => (ret, size) :: buffer_creates t
  | _ :: t => buffer_creates t

/-- The buffer writes of a trace: buffer, offset, size in bytes and the floats
passed, for every `pipe_buffer_write` call. -/
def buffer_writes : List Call → List (Handle × Nat × Nat × List ℚ)
  | [] => []
  | Call.pipe_buffer_write _ buf offset size data :: t =>
      (buf, offset, size, data) :: buffer_writes t
  | _ :: t => buffer_writes t

/-- The draw calls of a trace: vertex buffer, offset, number of vertices and
number of attributes per vertex of every `util_draw_vertex_buffer` call. -/
def draw_calls_of : List Call → List (Handle × Nat × Nat × Nat)
  | [] => []
  | Call.util_draw_vertex_buffer _ vbuf offset _ num_verts num_attribs :: t =>
      (vbuf, offset, num_verts, num_attribs) :: draw_calls_of t
  | _ :: t => draw_calls_of t

/-- Attribute `e` of vertex `i` in `vertices`, that is `vertices[i][e]`;
attribute 0 is the position, attribute 1 the colour. -/
def vertex_attrib (i e : Nat) : List ℚ := (vertices.getD i []).getD e []

/-- Component `k` of the position of vertex `i`: `vertices[i][0][k]`. -/
def position (i k : Nat) : ℚ := (vertex_attrib i 0).getD k 0

/-- Modelled from the spec: the per-vertex stride in bytes that the library's
`util_draw_vertex_buffer` sets for `num_attribs` attributes per vertex, each of
four floats. -/
def vertex_stride (num_attribs : Nat) : Nat := num_attribs * 4 * sizeof_float

/-- Modelled from the spec: the viewport transform the library applies to
component `k` of a normalised device coordinate: `scale[k] * v + translate[k]`. -/
def window (vp : pipe_viewport_state) (k : Fin 4) (v : ℚ) : ℚ :=
  vp.scale k * v + vp.translate k

/-- Twice the signed area of the triangle with corners `(x0, y0)`, `(x1, y1)`,
`(x2, y2)`; it is zero exactly when the corners are collinear. -/
def signed_area2 (x0 y0 x1 y1 x2 y2 : ℚ) : ℚ :=
  (x1 - x0) * (y2 - y0) - (x2 - x0) * (y1 - y0)

/-- The viewport state `init_prog` leaves in the struct, for the preprocessor
constants `c`. -/
def init_viewport (c : Config) (p : program) (n : Nat) : pipe_viewport_state :=
  (init_prog c p n).val.viewport

/-! ## The calls of `draw` -/

/-- The calls `draw` makes, in order. -/
theorem draw_calls (p : program) (n : Nat) :
    (draw p n).calls =
      [Call.cso_set_framebuffer p.cso p.framebuffer,
       Call.clear p.pipe PIPE_CLEAR_COLOR p.clear_color 0 0,
       Call.cso_set_blend p.cso p.blend,
       Call.cso_set_depth_stencil_alpha p.cso p.depthstencil,
       Call.cso_set_rasterizer p.cso p.rasterizer,
       Call.cso_set_viewport p.cso p.viewport,
       Call.cso_set_fragment_shader_handle p.cso p.fs,
       Call.cso_set_vertex_shader_handle p.cso p.vs,
       Call.cso_set_vertex_elements p.cso 2 p.velem,
       Call.util_draw_vertex_buffer p.pipe p.vbuf 0 PIPE_PRIM_TRIANGLES 3 2,
       Call.flush p.pipe PIPE_FLUSH_RENDER_CACHE NULL,
       Call.debug_dump_surface_bmp p.pipe "result.bmp" (p.framebuffer.cbufs 0)] :=
  rfl

/-- C1: `draw`, read as the ordered list of library calls it makes, is a list
`pre` of calls followed by exactly the draw call
`util_draw_vertex_buffer(p->pipe, p->vbuf, 0, PIPE_PRIM_TRIANGLES, 3, 2)`, one
flush and one dump of `framebuffer.cbufs[0]` to "result.bmp" (the last call).
`pre` holds no draw, flush or dump, so each of the three occurs exactly once;
the framebuffer bind, the colour clear and the seven state binds are all in
`pre`, and so is every setup call `draw` makes. -/
theorem draw_issues_one_draw_call_after_setup (p : program) (n : Nat) :
    ∃ pre : List Call,
      (draw p n).calls = pre ++
        [Call.util_draw_vertex_buffer p.pipe p.vbuf 0 PIPE_PRIM_TRIANGLES 3 2,
         Call.flush p.pipe PIPE_FLUSH_RENDER_CACHE NULL,
         Call.debug_dump_surface_bmp p.pipe "result.bmp" (p.framebuffer.cbufs 0)] ∧
      (∀ c ∈ pre, c.isDraw = false ∧ c.isFlush = false ∧ c.isDump = false) ∧
      Call.cso_set_framebuffer p.cso p.framebuffer ∈ pre ∧
      Call.clear p.pipe PIPE_CLEAR_COLOR p.clear_color 0 0 ∈ pre ∧
      Call.cso_set_blend p.cso p.blend ∈ pre ∧
      Call.cso_set_depth_stencil_alpha p.cso p.depthstencil ∈ pre ∧
      Call.cso_set_rasterizer p.cso p.rasterizer ∈ pre ∧
      Call.cso_set_viewport p.cso p.viewport ∈ pre ∧
      Call.cso_set_fragment_shader_handle p.cso p.fs ∈ pre ∧
      Call.cso_set_vertex_shader_handle p.cso p.vs ∈ pre ∧
      Call.cso_set_vertex_elements p.cso 2 p.velem ∈ pre ∧
      (∀ c ∈ (draw p n).calls, c.isSetup = true → c ∈ pre) ∧
      (draw p n).calls.countP Call.isDraw = 1 ∧
      (draw p n).calls.countP Call.isFlush = 1 ∧
      (draw p n).calls.countP Call.isDump = 1 ∧
      (draw p n).calls.getLast? =
        some (Call.debug_dump_surface_bmp p.pipe "result.bmp" (p.framebuffer.cbufs 0)) := by
  refine ⟨[Call.cso_set_framebuffer p.cso p.framebuffer,
       Call.clear p.pipe PIPE_CLEAR_COLOR p.clear_color 0 0,
       Call.cso_set_blend p.cso p.blend,
       Call.cso_set_depth_stencil_alpha p.cso p.depthstencil,
       Call.cso_set_rasterizer p.cso p.rasterizer,
       Call.cso_set_viewport p.cso p.viewport,
       Call.cso_set_fragment_shader_handle p.cso p.fs,
       Call.cso_set_vertex_shader_handle p.cso p.vs,
       Call.cso_set_vertex_elements p.cso 2 p.velem], ?_⟩
  rw [draw_calls]
  simp [Call.isDraw, Call.isFlush, Call.isDump, Call.isSetup, List.countP_cons]

/-! ## The calls of `init_prog`, `close_prog` and `main` -/

/-- The calls `init_prog` makes, in order, when tracing is compiled out; the
objects it creates get the handles `n + 1`, ..., `n + 9`. -/
theorem init_prog_calls (c : Config) (h : c.USE_TRACE = false) (p : program) (n : Nat) :
    (init_prog c p n).calls =
      [Call.null_sw_create (n + 1),
       Call.softpipe_create_screen (n + 1) (n + 2),
       Call.context_create (n + 2) NULL (n + 3),
       Call.cso_create_context (n + 3) (n + 4),
       Call.pipe_buffer_create (n + 2) 16 PIPE_BUFFER_USAGE_VERTEX sizeof_vertices (n + 5),
       Call.pipe_buffer_write (n + 2) (n + 5) 0 sizeof_vertices vertices.flatten.flatten,
       Call.texture_create (n + 2) (target_template c) (n + 6),
       Call.get_tex_surface (n + 2) (n + 6) 0 0 0 PIPE_BUFFER_USAGE_GPU_WRITE (n + 7),
       Call.util_make_vertex_passthrough_shader (n + 3) 2
         [TGSI_SEMANTIC_POSITION, TGSI_SEMANTIC_COLOR] [0, 0] (n + 8),
       Call.util_make_fragment_passthrough_shader (n + 3) (n + 9)] := by
  obtain ⟨t, w, ht, nr, fr, fl⟩ := c
  cases h
  cases fl <;> rfl

/-- The handles `init_prog` leaves in the struct, when tracing is compiled out. -/
theorem init_prog_handles (c : Config) (h : c.USE_TRACE = false) (p : program) (n : Nat) :
    (init_prog c p n).val.screen = n + 2 ∧ (init_prog c p n).val.pipe = n + 3 ∧
    (init_prog c p n).val.cso = n + 4 ∧ (init_prog c p n).val.vbuf = n + 5 ∧
    (init_prog c p n).val.target = n + 6 ∧ (init_prog c p n).val.framebuffer.cbufs 0 = n + 7 ∧
    (init_prog c p n).val.vs = n + 8 ∧ (init_prog c p n).val.fs = n + 9 ∧
    (init_prog c p n).next = n + 9 := by
  obtain ⟨t, w, ht, nr, fr, fl⟩ := c
  cases h
  cases fl <;> exact ⟨rfl, rfl, rfl, rfl, rfl, rfl, rfl, rfl, rfl⟩

/-- The calls `close_prog` makes, in order. -/
theorem close_prog_calls (ptr : Handle) (p : program) (n : Nat) :
    (close_prog ptr p n).calls =
      [Call.cso_release_all p.cso,
       Call.delete_vs_state p.pipe p.vs,
       Call.delete_fs_state p.pipe p.fs,
       Call.pipe_surface_reference (p.framebuffer.cbufs 0) NULL,
       Call.pipe_texture_reference p.target NULL,
       Call.pipe_buffer_reference p.vbuf NULL,
       Call.cso_destroy_context p.cso,
       Call.pipe_destroy p.pipe,
       Call.screen_destroy p.screen,
       Call.FREE ptr] :=
  rfl

/-- The function `main` is the sequence allocate, `init_prog`, `draw`,
`close_prog`: its calls are theirs, one after the other. -/
theorem main_calls (argc : Int) (argv : List String) (n : Nat) :
    (main argc argv n).calls =
      Call.CALLOC_STRUCT (n + 1) ::
        ((init_prog config program.zeroed (n + 1)).calls ++
         (draw (init_prog config program.zeroed (n + 1)).val
            (init_prog config program.zeroed (n + 1)).next).calls ++
         (close_prog (n + 1) (init_prog config program.zeroed (n + 1)).val
            (draw (init_prog config program.zeroed (n + 1)).val
              (init_prog config program.zeroed (n + 1)).next).next).calls) :=
  rfl

/-! ## The sequence of `main` -/

/-- C3: for every `argc`, `argv` (and every number `n` of objects handed out
before), `main` allocates the zeroed struct (pointer `ptr`), runs `init_prog` on
it, `draw` on the struct `init_prog` left, `close_prog` on the same pointer and
struct, and returns 0.  Its calls are the allocation followed by the calls of
the three functions in that order; the allocation, the first call of
`init_prog`, the draw call, the first call of `close_prog` and the `FREE` each
occur exactly once; and result and calls are the same for any other `argc`,
`argv`. -/
theorem main_is_one_linear_sequence (argc : Int) (argv : List String) (n : Nat) :
    ∃ (ptr : Handle) (i : Out program) (d c : Out Unit),
      ptr = n + 1 ∧
      i = init_prog config program.zeroed (n + 1) ∧
      d = draw i.val i.next ∧
      c = close_prog ptr i.val d.next ∧
      (main argc argv n).calls = [Call.CALLOC_STRUCT ptr] ++ i.calls ++ d.calls ++ c.calls ∧
      (main argc argv n).val = 0 ∧
      (main argc argv n).calls.countP Call.isAlloc = 1 ∧
      (main argc argv n).calls.countP Call.isWinsysCreate = 1 ∧
      (main argc argv n).calls.countP Call.isDraw = 1 ∧
      (main argc argv n).calls.countP Call.isReleaseAll = 1 ∧
      (main argc argv n).calls.countP Call.isFree = 1 ∧
      i.calls.countP Call.isWinsysCreate = 1 ∧
      d.calls.countP Call.isDraw = 1 ∧
      c.calls.countP Call.isReleaseAll = 1 ∧
      c.calls.getLast? = some (Call.FREE ptr) ∧
      ∀ (argc2 : Int) (argv2 : List String), main argc2 argv2 n = main argc argv n := by
  refine ⟨n + 1, _, _, _, rfl, rfl, rfl, rfl, rfl, rfl, ?_, ?_, ?_, ?_, ?_, ?_, ?_, ?_, rfl,
    fun _ _ => rfl⟩ <;>
  simp [main_calls, init_prog_calls config rfl, draw_calls, close_prog_calls, List.countP_cons,
    Call.isAlloc, Call.isWinsysCreate, Call.isDraw, Call.isReleaseAll, Call.isFree]

/-! ## Resources: acquired by `init_prog`, released by `close_prog` -/

/-- The calls of `main`, in order, with the handles written out: `n + 1` is the
struct, `n + 2` the winsys, `n + 3` the screen, `n + 4` the pipe context,
`n + 5` the cso context, `n + 6` the vertex buffer, `n + 7` the texture,
`n + 8` its surface, `n + 9` and `n + 10` the vertex and fragment shader. -/
theorem main_calls_explicit (argc : Int) (argv : List String) (n : Nat) :
    (main argc argv n).calls =
      [Call.CALLOC_STRUCT (n + 1),
       Call.null_sw_create (n + 2),
       Call.softpipe_create_screen (n + 2) (n + 3),
       Call.context_create (n + 3) NULL (n + 4),
       Call.cso_create_context (n + 4) (n + 5),
       Call.pipe_buffer_create (n + 3) 16 PIPE_BUFFER_USAGE_VERTEX sizeof_vertices (n + 6),
       Call.pipe_buffer_write (n + 3) (n + 6) 0 sizeof_vertices vertices.flatten.flatten,
       Call.texture_create (n + 3) (target_template config) (n + 7),
       Call.get_tex_surface (n + 3) (n + 7) 0 0 0 PIPE_BUFFER_USAGE_GPU_WRITE (n + 8),
       Call.util_make_vertex_passthrough_shader (n + 4) 2
         [TGSI_SEMANTIC_POSITION, TGSI_SEMANTIC_COLOR] [0, 0] (n + 9),
       Call.util_make_fragment_passthrough_shader (n + 4) (n + 10),
       Call.cso_set_framebuffer (n + 5)
         (init_prog config program.zeroed (n + 1)).val.framebuffer,
       Call.clear (n + 4) PIPE_CLEAR_COLOR
         (init_prog config program.zeroed (n + 1)).val.clear_color 0 0,
       Call.cso_set_blend (n + 5) (init_prog config program.zeroed (n + 1)).val.blend,
       Call.cso_set_depth_stencil_alpha (n + 5)
         (init_prog config program.zeroed (n + 1)).val.depthstencil,
       Call.cso_set_rasterizer (n + 5) (init_prog config program.zeroed (n + 1)).val.rasterizer,
       Call.cso_set_viewport (n + 5) (init_prog config program.zeroed (n + 1)).val.viewport,
       Call.cso_set_fragment_shader_handle (n + 5) (n + 10),
       Call.cso_set_vertex_shader_handle (n + 5) (n + 9),
       Call.cso_set_vertex_elements (n + 5) 2 (init_prog config program.zeroed (n + 1)).val.velem,
       Call.util_draw_vertex_buffer (n + 4) (n + 6) 0 PIPE_PRIM_TRIANGLES 3 2,
       Call.flush (n + 4) PIPE_FLUSH_RENDER_CACHE NULL,
       Call.debug_dump_surface_bmp (n + 4) "result.bmp" (n + 8),
       Call.cso_release_all (n + 5),
       Call.delete_vs_state (n + 4) (n + 9),
       Call.delete_fs_state (n + 4) (n + 10),
       Call.pipe_surface_reference (n + 8) NULL,
       Call.pipe_texture_reference (n + 7) NULL,
       Call.pipe_buffer_reference (n + 6) NULL,
       Call.cso_destroy_context (n + 5),
       Call.pipe_destroy (n + 4),
       Call.screen_destroy (n + 3),
       Call.FREE (n + 1)] :=
  rfl

/-- A trace shaped like that of `main` touches nothing after its release,
whatever the state structs passed: every release comes after the last call
that is handed a state struct. -/
theorem no_touch_after_release_of_shape (n : Nat) (data : List ℚ) (tmplt : pipe_texture)
    (fb : pipe_framebuffer_state) (cc : Fin 4 → ℚ) (bl : pipe_blend_state)
    (ds : pipe_depth_stencil_alpha_state) (rs : pipe_rasterizer_state)
    (vp : pipe_viewport_state) (ve : Fin 2 → pipe_vertex_element) :
    NoTouchAfterRelease
      [Call.CALLOC_STRUCT (n + 1),
       Call.null_sw_create (n + 2),
       Call.softpipe_create_screen (n + 2) (n + 3),
       Call.context_create (n + 3) NULL (n + 4),
       Call.cso_create_context (n + 4) (n + 5),
       Call.pipe_buffer_create (n + 3) 16 PIPE_BUFFER_USAGE_VERTEX sizeof_vertices (n + 6),
       Call.pipe_buffer_write (n + 3) (n + 6) 0 sizeof_vertices data,
       Call.texture_create (n + 3) tmplt (n + 7),
       Call.get_tex_surface (n + 3) (n + 7) 0 0 0 PIPE_BUFFER_USAGE_GPU_WRITE (n + 8),
       Call.util_make_vertex_passthrough_shader (n + 4) 2
         [TGSI_SEMANTIC_POSITION, TGSI_SEMANTIC_COLOR] [0, 0] (n + 9),
       Call.util_make_fragment_passthrough_shader (n + 4) (n + 10),
       Call.cso_set_framebuffer (n + 5) fb,
       Call.clear (n + 4) PIPE_CLEAR_COLOR cc 0 0,
       Call.cso_set_blend (n + 5) bl,
       Call.cso_set_depth_stencil_alpha (n + 5) ds,
       Call.cso_set_rasterizer (n + 5) rs,
       Call.cso_set_viewport (n + 5) vp,
       Call.cso_set_fragment_shader_handle (n + 5) (n + 10),
       Call.cso_set_vertex_shader_handle (n + 5) (n + 9),
       Call.cso_set_vertex_elements (n + 5) 2 ve,
       Call.util_draw_vertex_buffer (n + 4) (n + 6) 0 PIPE_PRIM_TRIANGLES 3 2,
       Call.flush (n + 4) PIPE_FLUSH_RENDER_CACHE NULL,
       Call.debug_dump_surface_bmp (n + 4) "result.bmp" (n + 8),
       Call.cso_release_all (n + 5),
       Call.delete_vs_state (n + 4) (n + 9),
       Call.delete_fs_state (n + 4) (n + 10),
       Call.pipe_surface_reference (n + 8) NULL,
       Call.pipe_texture_reference (n + 7) NULL,
       Call.pipe_buffer_reference (n + 6) NULL,
       Call.cso_destroy_context (n + 5),
       Call.pipe_destroy (n + 4),
       Call.screen_destroy (n + 3),
       Call.FREE (n + 1)] := by
  simp [NoTouchAfterRelease, Call.mentions, Call.acquires, Call.releases, Call.uses, live, NULL]

/-- The trace of `main` touches nothing after its release. -/
theorem main_no_touch_after_release (argc : Int) (argv : List String) (n : Nat) :
    NoTouchAfterRelease (main argc argv n).calls := by
  rw [main_calls_explicit]
  exact no_touch_after_release_of_shape n _ _ _ _ _ _ _ _ _


/-- C4: in the trace of `main`, with `P` the struct `init_prog` leaves and `ptr`
the pointer to it: the screen, pipe context, cso context, vertex buffer,
render-target texture, its surface, the two shaders and `ptr` are nine distinct
non-NULL objects; each is acquired once and released exactly once, by
`close_prog`; `init_prog` acquires the eight, after the winsys `n + 2` that it
hands to the screen on creation; nothing before `close_prog` releases anything;
nothing is touched after its release; `close_prog` first calls
`cso_release_all` on the cso context and then releases, in this order, vertex
shader, fragment shader, surface, texture, buffer, cso context, pipe context,
screen, struct; and the `FREE` of the struct is the last call of `main`. -/
theorem resources_released_once_in_order (argc : Int) (argv : List String) (n : Nat) :
    ∃ (ptr : Handle) (P : program) (pre cl rest : List Call),
      ptr = n + 1 ∧
      P = (init_prog config program.zeroed (n + 1)).val ∧
      cl = (close_prog ptr P (draw P (init_prog config program.zeroed (n + 1)).next).next).calls ∧
      (main argc argv n).calls = pre ++ cl ∧
      [P.screen, P.pipe, P.cso, P.vbuf, P.target, P.framebuffer.cbufs 0, P.vs, P.fs, ptr].Nodup ∧
      (∀ h ∈ [P.screen, P.pipe, P.cso, P.vbuf, P.target, P.framebuffer.cbufs 0, P.vs, P.fs, ptr],
        h ≠ NULL ∧
        ((main argc argv n).calls.flatMap Call.acquires).count h = 1 ∧
        ((main argc argv n).calls.flatMap Call.releases).count h = 1 ∧
        (cl.flatMap Call.releases).count h = 1) ∧
      (init_prog config program.zeroed (n + 1)).calls.flatMap Call.acquires =
        [n + 2, P.screen, P.pipe, P.cso, P.vbuf, P.target, P.framebuffer.cbufs 0, P.vs, P.fs] ∧
      pre.flatMap Call.releases = [] ∧
      NoTouchAfterRelease (main argc argv n).calls ∧
      cl = Call.cso_release_all P.cso :: rest ∧
      rest.flatMap Call.releases =
        [P.vs, P.fs, P.framebuffer.cbufs 0, P.target, P.vbuf, P.cso, P.pipe, P.screen, ptr] ∧
      (main argc argv n).calls.getLast? = some (Call.FREE ptr) := by
  obtain ⟨h1, h2, h3, h4, h5, h6, h7, h8, -⟩ :=
    init_prog_handles config rfl program.zeroed (n + 1)
  refine ⟨n + 1, _,
    [Call.CALLOC_STRUCT (n + 1)] ++ (init_prog config program.zeroed (n + 1)).calls ++
      (draw (init_prog config program.zeroed (n + 1)).val
        (init_prog config program.zeroed (n + 1)).next).calls,
    _, (close_prog (n + 1) (init_prog config program.zeroed (n + 1)).val 0).calls.tail,
    rfl, rfl, rfl, ?_, ?_, ?_, ?_, ?_, ?_, ?_, ?_, ?_⟩
  · simp [main_calls, close_prog_calls]
  · rw [h1, h2, h3, h4, h5, h6, h7, h8]
    simp
  · rw [h1, h2, h3, h4, h5, h6, h7, h8]
    simp [main_calls, init_prog_calls config rfl, draw_calls, close_prog_calls, h1, h2, h3, h4,
      h5, h6, h7, h8, Call.acquires, Call.releases, live, NULL, List.count_cons]
  · rw [h1, h2, h3, h4, h5, h6, h7, h8, init_prog_calls config rfl]
    rfl
  · simp [init_prog_calls config rfl, draw_calls, Call.releases]
  · exact main_no_touch_after_release argc argv n
  · simp [close_prog_calls]
  · simp [close_prog_calls, h1, h2, h3, h4, h5, h6, h7, h8, Call.releases, live, NULL]
  · rw [main_calls_explicit]
    rfl

/-! ## The vertex buffer -/

/-- C2: whatever struct and handle count `init_prog` starts from, it creates one
vertex buffer and writes it once, at offset 0, and both sizes are
`sizeof(vertices)` for `float vertices[4][2][4]`, that is 128 bytes and not 96:
the array has four vertex slots, the three listed vertices followed by an
all-zero fourth, 32 floats in all. -/
theorem init_prog_vertex_buffer_is_128_bytes (p : program) (n : Nat) :
    buffer_creates (init_prog config p n).calls = [((init_prog config p n).val.vbuf, 128)] ∧
    buffer_writes (init_prog config p n).calls =
      [((init_prog config p n).val.vbuf, 0, 128, vertices.flatten.flatten)] ∧
    128 ≠ 3 * 2 * 4 * sizeof_float ∧
    vertices.length = 4 ∧
    vertices.flatten.flatten.length = 32 ∧
    vertices.take 3 = vertices_init ∧
    vertices.drop 3 = [[[0, 0, 0, 0], [0, 0, 0, 0]]] := by
  obtain ⟨-, -, -, h4, -⟩ := init_prog_handles config rfl p n
  refine ⟨?_, ?_, by decide, rfl, rfl, rfl, rfl⟩
  · rw [h4, init_prog_calls config rfl]
    rfl
  · rw [h4, init_prog_calls config rfl]
    rfl

/-! ## Binary32 rounding: exact cases -/

/-- An integer is its own nearest integer. -/
theorem round_even_intCast (z : ℤ) : round_even (z : ℚ) = z := by
  simp [round_even]

/-- A value `m * 2 ^ k` with a significand `m` of at most 24 bits and an
exponent in range is a `float`: rounding leaves it unchanged. -/
theorem to_float_dyadic (m k : ℤ) (hm : |m| < 2 ^ 24) (hk : -149 ≤ k) :
    to_float ((m : ℚ) * 2 ^ k) = (m : ℚ) * 2 ^ k := by
  rcases eq_or_ne m 0 with rfl | hm0
  · simp [to_float, round_even]
  have h2 : (2 : ℚ) ≠ 0 := by norm_num
  have hpos : (0 : ℚ) < |(m : ℚ) * 2 ^ k| := by
    rw [abs_pos]
    exact mul_ne_zero (by exact_mod_cast hm0) (zpow_ne_zero _ h2)
  have hlt : |(m : ℚ) * 2 ^ k| < ((2 : ℕ) : ℚ) ^ (k + 24) := by
    rw [abs_mul, abs_of_pos (zpow_pos (by norm_num : (0 : ℚ) < 2) k), zpow_add₀ (by norm_num)]
    rw [mul_comm]
    apply mul_lt_mul_of_pos_left _ (zpow_pos (by norm_num) k)
    exact_mod_cast hm
  have hlog : Int.log 2 |(m : ℚ) * 2 ^ k| < k + 24 :=
    (Int.lt_zpow_iff_log_lt (by norm_num) hpos).1 hlt
  have he : float_exponent ((m : ℚ) * 2 ^ k) - 23 ≤ k := by
    unfold float_exponent
    have := max_le (Int.le_of_lt_add_one (by linarith : Int.log 2 |(m : ℚ) * 2 ^ k| < k + 23 + 1))
      (by linarith : (-126 : ℤ) ≤ k + 23)
    linarith
  obtain ⟨d, hd⟩ := Int.eq_ofNat_of_zero_le (sub_nonneg.2 he)
  have hq : ∀ e : ℤ, k = e + d → (m : ℚ) * 2 ^ k / 2 ^ e = ((m * 2 ^ d : ℤ) : ℚ) := by
    intro e hke
    rw [hke, zpow_add₀ h2, zpow_natCast]
    field_simp
    ring
  unfold to_float
  generalize float_exponent ((m : ℚ) * 2 ^ k) - 23 = e at *
  have hke : k = e + d := by linarith
  rw [hq e hke, round_even_intCast, hke, zpow_add₀ h2, zpow_natCast]
  push_cast
  ring

/-- Every integer of magnitude up to `2 ^ 24` is a `float`. -/
theorem to_float_intCast (m : ℤ) (hm : |m| ≤ 16777216) : to_float (m : ℚ) = m := by
  rcases lt_or_eq_of_le hm with hlt | heq
  · have := to_float_dyadic m 0 (by norm_num; exact hlt) (by norm_num)
    simpa using this
  · rcases (abs_eq (by norm_num : (0 : ℤ) ≤ 16777216)).1 heq with h | h
    · subst h
      have := to_float_dyadic 1 24 (by norm_num) (by norm_num)
      norm_num at this ⊢
      exact this
    · subst h
      have := to_float_dyadic (-1) 24 (by norm_num) (by norm_num)
      norm_num at this ⊢
      exact this

/-- Half of every integer of magnitude up to `2 ^ 24` is a `float`. -/
theorem to_float_half (m : ℤ) (hm : |m| ≤ 16777216) : to_float ((m : ℚ) / 2) = (m : ℚ) / 2 := by
  rcases lt_or_eq_of_le hm with hlt | heq
  · have := to_float_dyadic m (-1) (by norm_num; exact hlt) (by norm_num)
    rw [zpow_neg_one] at this
    rw [div_eq_mul_inv]
    exact this
  · rcases (abs_eq (by norm_num : (0 : ℤ) ≤ 16777216)).1 heq with h | h
    · subst h
      have := to_float_dyadic 1 23 (by norm_num) (by norm_num)
      norm_num at this ⊢
      exact this
    · subst h
      have := to_float_dyadic (-1) 23 (by norm_num) (by norm_num)
      norm_num at this ⊢
      exact this

/-- The conversion `(float)n` is exact for every `n` up to `2 ^ 24`. -/
theorem float_of_nat_exact (n : Nat) (hn : n ≤ 16777216) : float_of_nat n = n := by
  have := to_float_intCast (n : ℤ) (by rw [abs_of_nonneg (by positivity)]; exact_mod_cast hn)
  simpa [float_of_nat] using this

/-- The integer `2 ^ 24 + 1` is not a `float`: it lies halfway between
`2 ^ 24` and `2 ^ 24 + 2` and rounds to the even significand, `2 ^ 24`. -/
theorem to_float_16777217 : to_float 16777217 = 16777216 := by
  have hlog : Int.log 2 |(16777217 : ℚ)| = 24 := by
    rw [abs_of_pos (by norm_num)]
    rw [show (16777217 : ℚ) = ((16777217 : ℕ) : ℚ) by norm_num, Int.log_natCast,
      Nat.log_eq_of_pow_le_of_lt_pow (by norm_num : 2 ^ 24 ≤ 16777217) (by norm_num)]
    rfl
  have hexp : float_exponent 16777217 = 24 := by
    unfold float_exponent
    rw [hlog]
    rfl
  unfold to_float
  rw [hexp]
  have hf : ⌊(16777217 : ℚ) / 2 ^ ((24 : ℤ) - 23)⌋ = 8388608 := by
    rw [Int.floor_eq_iff]
    norm_num
  have hr : round_even ((16777217 : ℚ) / 2 ^ ((24 : ℤ) - 23)) = 8388608 := by
    unfold round_even
    rw [hf]
    norm_num
  rw [hr]
  norm_num

/-! ## The viewport -/

/-- The viewport `init_prog` computes, component by component, for any values
of the preprocessor constants. -/
theorem init_prog_viewport (c : Config) (p : program) (n : Nat) :
    (init_prog c p n).val.viewport.scale 0 = fdiv (float_of_nat c.WIDTH) 2 ∧
    (init_prog c p n).val.viewport.scale 1 =
      fmul (fdiv (float_of_nat c.HEIGHT) 2) (if c.FLIP then -1 else 1) ∧
    (init_prog c p n).val.viewport.scale 2 =
      fdiv (fsub (float_of_nat c.FAR) (float_of_nat c.NEAR)) 2 ∧
    (init_prog c p n).val.viewport.scale 3 = 1 ∧
    (init_prog c p n).val.viewport.translate 0 =
      fadd (fdiv (float_of_nat c.WIDTH) 2) (float_of_nat 0) ∧
    (init_prog c p n).val.viewport.translate 1 =
      fadd (fmul (fadd (fdiv (float_of_nat c.HEIGHT) 2) (float_of_nat 0))
          (if c.FLIP then -1 else 1))
        (if c.FLIP then float_of_nat c.HEIGHT else 0) ∧
    (init_prog c p n).val.viewport.translate 2 =
      fadd (fdiv (fsub (float_of_nat c.FAR) (float_of_nat c.NEAR)) 2) (float_of_nat c.FAR) ∧
    (init_prog c p n).val.viewport.translate 3 = 0 := by
  obtain ⟨t, w, ht, nr, fr, fl⟩ := c
  cases t <;> cases fl <;> exact ⟨rfl, rfl, rfl, rfl, rfl, rfl, rfl, rfl⟩

/-- The viewport `init_prog` computes with the constants of the file: every
conversion and operation is exact there. -/
theorem init_prog_viewport_config (p : program) (n : Nat) :
    (init_prog config p n).val.viewport.scale 0 = 150 ∧
    (init_prog config p n).val.viewport.scale 1 = 150 ∧
    (init_prog config p n).val.viewport.scale 2 = 485 ∧
    (init_prog config p n).val.viewport.scale 3 = 1 ∧
    (init_prog config p n).val.viewport.translate 0 = 150 ∧
    (init_prog config p n).val.viewport.translate 1 = 150 ∧
    (init_prog config p n).val.viewport.translate 2 = 1485 ∧
    (init_prog config p n).val.viewport.translate 3 = 0 := by
  obtain ⟨s0, s1, s2, s3, t0, t1, t2, t3⟩ := init_prog_viewport config p n
  have hw : config.WIDTH = 300 := rfl
  have hh : config.HEIGHT = 300 := rfl
  have hn : config.NEAR = 30 := rfl
  have hf : config.FAR = 1000 := rfl
  have hl : config.FLIP = false := rfl
  have f0 : float_of_nat 0 = 0 := by simpa using float_of_nat_exact 0 (by norm_num)
  have f30 : float_of_nat 30 = 30 := by simpa using float_of_nat_exact 30 (by norm_num)
  have f300 : float_of_nat 300 = 300 := by simpa using float_of_nat_exact 300 (by norm_num)
  have f1000 : float_of_nat 1000 = 1000 := by simpa using float_of_nat_exact 1000 (by norm_num)
  have e150 : to_float 150 = 150 := by simpa using to_float_intCast 150 (by norm_num)
  have e485 : to_float 485 = 485 := by simpa using to_float_intCast 485 (by norm_num)
  have e970 : to_float 970 = 970 := by simpa using to_float_intCast 970 (by norm_num)
  have e1485 : to_float 1485 = 1485 := by simpa using to_float_intCast 1485 (by norm_num)
  have d300 : fdiv 300 2 = 150 := by
    unfold fdiv
    norm_num
    exact e150
  have d970 : fdiv 970 2 = 485 := by
    unfold fdiv
    norm_num
    exact e485
  have s970 : fsub 1000 30 = 970 := by
    unfold fsub
    norm_num
    exact e970
  have a150 : fadd 150 0 = 150 := by
    unfold fadd
    norm_num
    exact e150
  have m150 : fmul 150 1 = 150 := by
    unfold fmul
    norm_num
    exact e150
  have a1485 : fadd 485 1000 = 1485 := by
    unfold fadd
    norm_num
    exact e1485
  rw [hw, f300, d300] at s0
  rw [hh, hl, f300, d300] at s1
  rw [hf, hn, f1000, f30, s970, d970] at s2
  rw [hw, f300, d300, f0, a150] at t0
  rw [hh, hl, f300, d300, f0, a150] at t1
  rw [hf, hn, f1000, f30, s970, d970, a1485] at t2
  simp only [Bool.false_eq_true, if_false] at s1 t1
  rw [m150] at s1
  rw [m150, a150] at t1
  exact ⟨s0, s1, s2, s3, t0, t1, t2, t3⟩

/-- C5: with the constants of the file, the viewport `init_prog` computes has
scale (150, 150, 485, 1) and translate (150, 150, 1485, 0); the transform
`scale * v + translate` sends x and y of [-1, 1] into [0, 300] and reaches every
value of [0, 300], and sends z of [-1, 1] into [1000, 1970] and reaches every
value of [1000, 1970]. -/
theorem viewport_of_file_constants (p : program) (n : Nat) :
    (init_prog config p n).val.viewport.scale = ![150, 150, 485, 1] ∧
    (init_prog config p n).val.viewport.translate = ![150, 150, 1485, 0] ∧
    (∀ k : Fin 4, k = 0 ∨ k = 1 →
      (∀ v : ℚ, -1 ≤ v → v ≤ 1 →
        0 ≤ window (init_prog config p n).val.viewport k v ∧
        window (init_prog config p n).val.viewport k v ≤ 300) ∧
      (∀ t : ℚ, 0 ≤ t → t ≤ 300 →
        ∃ v : ℚ, -1 ≤ v ∧ v ≤ 1 ∧ window (init_prog config p n).val.viewport k v = t)) ∧
    (∀ v : ℚ, -1 ≤ v → v ≤ 1 →
      1000 ≤ window (init_prog config p n).val.viewport 2 v ∧
      window (init_prog config p n).val.viewport 2 v ≤ 1970) ∧
    (∀ t : ℚ, 1000 ≤ t → t ≤ 1970 →
      ∃ v : ℚ, -1 ≤ v ∧ v ≤ 1 ∧ window (init_prog config p n).val.viewport 2 v = t) := by
  obtain ⟨s0, s1, s2, s3, t0, t1, t2, t3⟩ := init_prog_viewport_config p n
  refine ⟨?_, ?_, ?_, ?_, ?_⟩
  · funext k
    fin_cases k <;> simp [s0, s1, s2, s3]
  · funext k
    fin_cases k <;> simp [t0, t1, t2, t3]
  · intro k hk
    have hs : (init_prog config p n).val.viewport.scale k = 150 := by
      rcases hk with rfl | rfl
      · exact s0
      · exact s1
    have ht : (init_prog config p n).val.viewport.translate k = 150 := by
      rcases hk with rfl | rfl
      · exact t0
      · exact t1
    refine ⟨fun v h1 h2 => ?_, fun t h1 h2 => ?_⟩
    · simp only [window, hs, ht]
      constructor <;> linarith
    · refine ⟨(t - 150) / 150, ?_, ?_, ?_⟩
      · rw [le_div_iff₀ (by norm_num)]
        linarith
      · rw [div_le_iff₀ (by norm_num)]
        linarith
      · simp only [window, hs, ht]
        field_simp
  · intro v h1 h2
    simp only [window, s2, t2]
    constructor <;> linarith
  · intro t h1 h2
    refine ⟨(t - 1485) / 485, ?_, ?_, ?_⟩
    · rw [le_div_iff₀ (by norm_num)]
      linarith
    · rw [div_le_iff₀ (by norm_num)]
      linarith
    · simp only [window, s2, t2]
      field_simp

/-- The components of `init_viewport`, for any values of the preprocessor
constants. -/
theorem init_viewport_components (c : Config) (p : program) (n : Nat) :
    (init_viewport c p n).scale 0 = fdiv (float_of_nat c.WIDTH) 2 ∧
    (init_viewport c p n).scale 1 =
      fmul (fdiv (float_of_nat c.HEIGHT) 2) (if c.FLIP then -1 else 1) ∧
    (init_viewport c p n).scale 2 =
      fdiv (fsub (float_of_nat c.FAR) (float_of_nat c.NEAR)) 2 ∧
    (init_viewport c p n).scale 3 = 1 ∧
    (init_viewport c p n).translate 0 =
      fadd (fdiv (float_of_nat c.WIDTH) 2) (float_of_nat 0) ∧
    (init_viewport c p n).translate 1 =
      fadd (fmul (fadd (fdiv (float_of_nat c.HEIGHT) 2) (float_of_nat 0))
          (if c.FLIP then -1 else 1))
        (if c.FLIP then float_of_nat c.HEIGHT else 0) ∧
    (init_viewport c p n).translate 2 =
      fadd (fdiv (fsub (float_of_nat c.FAR) (float_of_nat c.NEAR)) 2) (float_of_nat c.FAR) ∧
    (init_viewport c p n).translate 3 = 0 := by
  unfold init_viewport
  exact init_prog_viewport c p n

/-- For a height up to `2 ^ 24` the y scale and translate that `init_prog`
computes are exact: `-h / 2` and `h / 2` with FLIP set, `h / 2` and `h / 2` with
FLIP clear. -/
theorem flip_components_exact (h : Nat) (hh : h ≤ 16777216) :
    fmul (fdiv (float_of_nat h) 2) (-1) = -((h : ℚ) / 2) ∧
    fadd (fmul (fadd (fdiv (float_of_nat h) 2) (float_of_nat 0)) (-1)) (float_of_nat h) =
      (h : ℚ) / 2 ∧
    fmul (fdiv (float_of_nat h) 2) 1 = (h : ℚ) / 2 ∧
    fadd (fmul (fadd (fdiv (float_of_nat h) 2) (float_of_nat 0)) 1) 0 = (h : ℚ) / 2 := by
  have hz : |(h : ℤ)| ≤ 16777216 := by
    rw [abs_of_nonneg (by positivity)]
    exact_mod_cast hh
  have hzn : |(-(h : ℤ))| ≤ 16777216 := by
    rw [abs_neg]
    exact hz
  have e0 : float_of_nat 0 = 0 := by simpa using float_of_nat_exact 0 (by norm_num)
  have e1 : float_of_nat h = h := float_of_nat_exact h hh
  have e2 : to_float ((h : ℚ) / 2) = (h : ℚ) / 2 := by
    simpa using to_float_half (h : ℤ) hz
  have e3 : to_float (-((h : ℚ) / 2)) = -((h : ℚ) / 2) := by
    have := to_float_half (-(h : ℤ)) hzn
    push_cast at this
    rw [neg_div] at this
    exact this
  have d : fdiv (h : ℚ) 2 = (h : ℚ) / 2 := e2
  have a : fadd ((h : ℚ) / 2) 0 = (h : ℚ) / 2 := by
    unfold fadd
    rw [add_zero]
    exact e2
  have mneg : fmul ((h : ℚ) / 2) (-1) = -((h : ℚ) / 2) := by
    unfold fmul
    rw [mul_neg_one]
    exact e3
  have mone : fmul ((h : ℚ) / 2) 1 = (h : ℚ) / 2 := by
    unfold fmul
    rw [mul_one]
    exact e2
  have back : fadd (-((h : ℚ) / 2)) (h : ℚ) = (h : ℚ) / 2 := by
    unfold fadd
    rw [show -((h : ℚ) / 2) + (h : ℚ) = (h : ℚ) / 2 by ring]
    exact e2
  rw [e0, e1, d, a, mneg, mone, back, a]
  exact ⟨rfl, rfl, rfl, rfl⟩

/-- The window y of two viewports whose y scale and translate are `-h / 2`,
`h / 2` (`vF`, FLIP set) and `h / 2`, `h / 2` (`vN`, FLIP clear). -/
theorem window_y_of_flip (h : ℚ) (vF vN : pipe_viewport_state)
    (f1 : vF.scale 1 = -(h / 2)) (g1 : vF.translate 1 = h / 2)
    (a1 : vN.scale 1 = h / 2) (b1 : vN.translate 1 = h / 2) :
    (∀ y : ℚ, window vN 1 y = h / 2 * (y + 1)) ∧
    (∀ y : ℚ, window vF 1 y = h / 2 * (1 - y)) := by
  constructor <;> intro y
  · simp only [window, a1, b1]
    ring
  · simp only [window, f1, g1]
    ring

/-- Every value of `[0, h]` is `h / 2 * (y + 1)` for some `y` of `[-1, 1]`, and
`h / 2 * (1 - y)` for another. -/
theorem window_y_onto (h : ℚ) (hh : 0 ≤ h) (t : ℚ) (h1 : 0 ≤ t) (h2 : t ≤ h) :
    (∃ y : ℚ, -1 ≤ y ∧ y ≤ 1 ∧ h / 2 * (y + 1) = t) ∧
    (∃ y : ℚ, -1 ≤ y ∧ y ≤ 1 ∧ h / 2 * (1 - y) = t) := by
  rcases eq_or_lt_of_le hh with h0 | hpos
  · have ht : t = 0 := le_antisymm (h0 ▸ h2) h1
    subst h0
    subst ht
    exact ⟨⟨0, by norm_num, by norm_num, by norm_num⟩, ⟨0, by norm_num, by norm_num, by norm_num⟩⟩
  · have hne : h ≠ 0 := ne_of_gt hpos
    refine ⟨⟨2 * t / h - 1, ?_, ?_, ?_⟩, ⟨1 - 2 * t / h, ?_, ?_, ?_⟩⟩
    · have : 0 ≤ 2 * t / h := div_nonneg (by linarith) hh
      linarith
    · have : 2 * t / h ≤ 2 := by
        rw [div_le_iff₀ hpos]
        linarith
      linarith
    · field_simp
      ring
    · have : 2 * t / h ≤ 2 := by
        rw [div_le_iff₀ hpos]
        linarith
      linarith
    · have : 0 ≤ 2 * t / h := div_nonneg (by linarith) hh
      linarith
    · field_simp
      ring

/-- C7, as stated, fails: with HEIGHT = 16777217 (2 ^ 24 + 1) the conversion
`(float)HEIGHT` rounds to 16777216, so with FLIP set `translate[1]` is 8388608
and not HEIGHT / 2, and at NDC y = 0 both settings give window y 8388608, which
is not HEIGHT minus itself. -/
theorem flip_fails_at_height_16777217 :
    (init_viewport { config with HEIGHT := 16777217, FLIP := true }
      program.zeroed 0).translate 1 = 8388608 ∧
    (init_viewport { config with HEIGHT := 16777217, FLIP := true }
      program.zeroed 0).translate 1 ≠ ((16777217 : Nat) : ℚ) / 2 ∧
    window (init_viewport { config with HEIGHT := 16777217, FLIP := true }
      program.zeroed 0) 1 0 = 8388608 ∧
    window (init_viewport { config with HEIGHT := 16777217, FLIP := false }
      program.zeroed 0) 1 0 = 8388608 ∧
    ¬ ∀ y : ℚ,
      window (init_viewport { config with HEIGHT := 16777217, FLIP := true }
        program.zeroed 0) 1 y =
      ((16777217 : Nat) : ℚ) -
        window (init_viewport { config with HEIGHT := 16777217, FLIP := false }
          program.zeroed 0) 1 y := by
  obtain ⟨-, -, -, -, -, g1, -, -⟩ :=
    init_viewport_components { config with HEIGHT := 16777217, FLIP := true } program.zeroed 0
  obtain ⟨-, -, -, -, -, b1, -, -⟩ :=
    init_viewport_components { config with HEIGHT := 16777217, FLIP := false } program.zeroed 0
  simp only [if_true, Bool.false_eq_true, if_false] at g1 b1
  have e0 : float_of_nat 0 = 0 := by simpa using float_of_nat_exact 0 (by norm_num)
  have eH : float_of_nat 16777217 = 16777216 := by
    unfold float_of_nat
    norm_num
    exact to_float_16777217
  have e8 : to_float 8388608 = 8388608 := by simpa using to_float_intCast 8388608 (by norm_num)
  have e8n : to_float (-8388608) = -8388608 := by
    simpa using to_float_intCast (-8388608) (by norm_num)
  have d : fdiv 16777216 2 = 8388608 := by
    unfold fdiv
    norm_num
    exact e8
  have a : fadd 8388608 0 = 8388608 := by
    unfold fadd
    norm_num
    exact e8
  have mneg : fmul 8388608 (-1) = -8388608 := by
    unfold fmul
    norm_num
    exact e8n
  have mone : fmul 8388608 1 = 8388608 := by
    unfold fmul
    norm_num
    exact e8
  have back : fadd (-8388608) 16777216 = 8388608 := by
    unfold fadd
    norm_num
    exact e8
  rw [eH, d, e0, a, mneg, back] at g1
  rw [eH, d, e0, a, mone, a] at b1
  generalize init_viewport { config with HEIGHT := 16777217, FLIP := true } program.zeroed 0 =
    vF at *
  generalize init_viewport { config with HEIGHT := 16777217, FLIP := false } program.zeroed 0 =
    vN at *
  have wF : window vF 1 0 = 8388608 := by
    simp only [window, g1]
    norm_num
  have wN : window vN 1 0 = 8388608 := by
    simp only [window, b1]
    norm_num
  refine ⟨g1, ?_, wF, wN, ?_⟩
  · rw [g1]
    norm_num
  · intro hall
    have h0 := hall 0
    rw [wF, wN] at h0
    norm_num at h0

/-- C7, amended: for any values of the constants with HEIGHT at most 16777216
(2 ^ 24, up to which `(float)HEIGHT` and its half are exact) and any NDC `y`:
the window y computed with FLIP set is `HEIGHT` minus the window y computed with
FLIP clear; `scale[1]` is negated and `translate[1]` is `HEIGHT / 2` in both;
every other component of scale and translate is the same for both settings;
under both settings [-1, 1] is sent into [0, HEIGHT] and every value of
[0, HEIGHT] is reached; with FLIP clear the map is increasing from 0 to
`HEIGHT`, with FLIP set it is decreasing from `HEIGHT` to 0. -/
theorem flip_mirrors_window_y_of_exact_height (c : Config) (p : program) (n : Nat)
    (hH : c.HEIGHT ≤ 16777216) :
    (∀ y : ℚ, window (init_viewport { c with FLIP := true } p n) 1 y =
      (c.HEIGHT : ℚ) - window (init_viewport { c with FLIP := false } p n) 1 y) ∧
    (init_viewport { c with FLIP := true } p n).scale 1 =
      -(init_viewport { c with FLIP := false } p n).scale 1 ∧
    (init_viewport { c with FLIP := true } p n).translate 1 = (c.HEIGHT : ℚ) / 2 ∧
    (init_viewport { c with FLIP := false } p n).translate 1 = (c.HEIGHT : ℚ) / 2 ∧
    (∀ k : Fin 4, k ≠ 1 →
      (init_viewport { c with FLIP := true } p n).scale k =
        (init_viewport { c with FLIP := false } p n).scale k ∧
      (init_viewport { c with FLIP := true } p n).translate k =
        (init_viewport { c with FLIP := false } p n).translate k) ∧
    (∀ y : ℚ, -1 ≤ y → y ≤ 1 →
      (0 ≤ window (init_viewport { c with FLIP := false } p n) 1 y ∧
        window (init_viewport { c with FLIP := false } p n) 1 y ≤ (c.HEIGHT : ℚ)) ∧
      (0 ≤ window (init_viewport { c with FLIP := true } p n) 1 y ∧
        window (init_viewport { c with FLIP := true } p n) 1 y ≤ (c.HEIGHT : ℚ))) ∧
    (∀ t : ℚ, 0 ≤ t → t ≤ (c.HEIGHT : ℚ) →
      (∃ y : ℚ, -1 ≤ y ∧ y ≤ 1 ∧ window (init_viewport { c with FLIP := false } p n) 1 y = t) ∧
      (∃ y : ℚ, -1 ≤ y ∧ y ≤ 1 ∧ window (init_viewport { c with FLIP := true } p n) 1 y = t)) ∧
    (∀ y1 y2 : ℚ, y1 ≤ y2 →
      window (init_viewport { c with FLIP := false } p n) 1 y1 ≤
        window (init_viewport { c with FLIP := false } p n) 1 y2 ∧
      window (init_viewport { c with FLIP := true } p n) 1 y2 ≤
        window (init_viewport { c with FLIP := true } p n) 1 y1) ∧
    window (init_viewport { c with FLIP := false } p n) 1 (-1) = 0 ∧
    window (init_viewport { c with FLIP := false } p n) 1 1 = (c.HEIGHT : ℚ) ∧
    window (init_viewport { c with FLIP := true } p n) 1 (-1) = (c.HEIGHT : ℚ) ∧
    window (init_viewport { c with FLIP := true } p n) 1 1 = 0 := by
  obtain ⟨f0, f1, f2, f3, g0, g1, g2, g3⟩ := init_viewport_components { c with FLIP := true } p n
  obtain ⟨a0, a1, a2, a3, b0, b1, b2, b3⟩ :=
    init_viewport_components { c with FLIP := false } p n
  simp only [if_true, Bool.false_eq_true, if_false] at f0 f1 f2 g0 g1 g2 a0 a1 a2 b0 b1 b2
  obtain ⟨x1, x2, x3, x4⟩ := flip_components_exact c.HEIGHT hH
  rw [x1] at f1
  rw [x2] at g1
  rw [x3] at a1
  rw [x4] at b1
  generalize init_viewport { c with FLIP := true } p n = vF at *
  generalize init_viewport { c with FLIP := false } p n = vN at *
  have hh : (0 : ℚ) ≤ (c.HEIGHT : ℚ) := Nat.cast_nonneg _
  generalize (c.HEIGHT : ℚ) = h at *
  obtain ⟨wN, wF⟩ := window_y_of_flip h vF vN f1 g1 a1 b1
  have hh2 : (0 : ℚ) ≤ h / 2 := by linarith
  refine ⟨?_, ?_, g1, b1, ?_, ?_, ?_, ?_, ?_, ?_, ?_, ?_⟩
  · intro y
    rw [wN, wF]
    ring
  · rw [f1, a1]
  · intro k hk
    fin_cases k
    · exact ⟨f0.trans a0.symm, g0.trans b0.symm⟩
    · exact absurd rfl hk
    · exact ⟨f2.trans a2.symm, g2.trans b2.symm⟩
    · exact ⟨f3.trans a3.symm, g3.trans b3.symm⟩
  · intro y h1 h2
    rw [wN, wF]
    have e1 : h / 2 * (y + 1) ≤ h / 2 * 2 := mul_le_mul_of_nonneg_left (by linarith) hh2
    have e2 : h / 2 * (1 - y) ≤ h / 2 * 2 := mul_le_mul_of_nonneg_left (by linarith) hh2
    have e3 : 0 ≤ h / 2 * (y + 1) := mul_nonneg hh2 (by linarith)
    have e4 : 0 ≤ h / 2 * (1 - y) := mul_nonneg hh2 (by linarith)
    refine ⟨⟨e3, ?_⟩, ⟨e4, ?_⟩⟩ <;> linarith
  · intro t h1 h2
    obtain ⟨⟨y, ha, hb, hc⟩, ⟨z, hd, he, hf⟩⟩ := window_y_onto h hh t h1 h2
    exact ⟨⟨y, ha, hb, by rw [wN, hc]⟩, ⟨z, hd, he, by rw [wF, hf]⟩⟩
  · intro y1 y2 h12
    rw [wN, wN, wF, wF]
    exact ⟨mul_le_mul_of_nonneg_left (by linarith) hh2,
      mul_le_mul_of_nonneg_left (by linarith) hh2⟩
  · rw [wN]
    ring
  · rw [wN]
    ring
  · rw [wF]
    ring
  · rw [wF]
    ring

/-- C7, amended, at the file's own constants (HEIGHT = 300, within the bound):
flipped window y is 300 minus the unflipped one, and `translate[1]` is 150 under
both settings. -/
theorem flip_mirrors_window_y_of_exact_height_witness :
    config.HEIGHT ≤ 16777216 ∧
    (∀ y : ℚ, window (init_viewport { config with FLIP := true } program.zeroed 0) 1 y =
      (config.HEIGHT : ℚ) -
        window (init_viewport { config with FLIP := false } program.zeroed 0) 1 y) ∧
    (init_viewport { config with FLIP := true } program.zeroed 0).translate 1 =
      (config.HEIGHT : ℚ) / 2 ∧
    (init_viewport { config with FLIP := false } program.zeroed 0).translate 1 =
      (config.HEIGHT : ℚ) / 2 :=
  ⟨by decide,
   (flip_mirrors_window_y_of_exact_height config program.zeroed 0 (by decide)).1,
   (flip_mirrors_window_y_of_exact_height config program.zeroed 0 (by decide)).2.2.1,
   (flip_mirrors_window_y_of_exact_height config program.zeroed 0 (by decide)).2.2.2.1⟩

/-! ## The triangle and the vertex fetch -/

/-- C8: the positions of the three vertices written to the vertex buffer are
(0, -0.9, 0, 1), (-0.9, 0.9, 0, 1) and (0.9, 0.9, 0, 1); each has w = 1; the
viewport `init_prog` computes sends them to the window positions (150, 15),
(15, 285) and (285, 285), so x and y lie in [15, 285], inside the 300 by 300
render target `init_prog` set up; and the three window positions are not
collinear. -/
theorem triangle_inside_render_target (p : program) (n : Nat) :
    vertex_attrib 0 0 = [0, -9 / 10, 0, 1] ∧
    vertex_attrib 1 0 = [-9 / 10, 9 / 10, 0, 1] ∧
    vertex_attrib 2 0 = [9 / 10, 9 / 10, 0, 1] ∧
    buffer_writes (init_prog config p n).calls =
      [((init_prog config p n).val.vbuf, 0, sizeof_vertices, vertices.flatten.flatten)] ∧
    (∀ i : Nat, i < 3 →
      position i 3 = 1 ∧
      15 ≤ window (init_viewport config p n) 0 (position i 0) ∧
      window (init_viewport config p n) 0 (position i 0) ≤ 285 ∧
      15 ≤ window (init_viewport config p n) 1 (position i 1) ∧
      window (init_viewport config p n) 1 (position i 1) ≤ 285) ∧
    window (init_viewport config p n) 0 (position 0 0) = 150 ∧
    window (init_viewport config p n) 1 (position 0 1) = 15 ∧
    window (init_viewport config p n) 0 (position 1 0) = 15 ∧
    window (init_viewport config p n) 1 (position 1 1) = 285 ∧
    window (init_viewport config p n) 0 (position 2 0) = 285 ∧
    window (init_viewport config p n) 1 (position 2 1) = 285 ∧
    (0 : ℚ) ≤ 15 ∧ (285 : ℚ) ≤ (config.WIDTH : ℚ) ∧ (285 : ℚ) ≤ (config.HEIGHT : ℚ) ∧
    (init_prog config p n).val.framebuffer.width = config.WIDTH ∧
    (init_prog config p n).val.framebuffer.height = config.HEIGHT ∧
    config.WIDTH = 300 ∧ config.HEIGHT = 300 ∧
    signed_area2
      (window (init_viewport config p n) 0 (position 0 0))
      (window (init_viewport config p n) 1 (position 0 1))
      (window (init_viewport config p n) 0 (position 1 0))
      (window (init_viewport config p n) 1 (position 1 1))
      (window (init_viewport config p n) 0 (position 2 0))
      (window (init_viewport config p n) 1 (position 2 1)) ≠ 0 := by
  obtain ⟨s0, s1, -, -, t0, t1, -, -⟩ := init_prog_viewport_config p n
  obtain ⟨-, -, -, h4, -⟩ := init_prog_handles config rfl p n
  have p00 : position 0 0 = 0 := rfl
  have p01 : position 0 1 = -9 / 10 := rfl
  have p03 : position 0 3 = 1 := rfl
  have p10 : position 1 0 = -9 / 10 := rfl
  have p11 : position 1 1 = 9 / 10 := rfl
  have p13 : position 1 3 = 1 := rfl
  have p20 : position 2 0 = 9 / 10 := rfl
  have p21 : position 2 1 = 9 / 10 := rfl
  have p23 : position 2 3 = 1 := rfl
  have wx : ∀ v : ℚ, window (init_viewport config p n) 0 v = 150 * v + 150 := by
    intro v
    simp only [window, init_viewport, s0, t0]
  have wy : ∀ v : ℚ, window (init_viewport config p n) 1 v = 150 * v + 150 := by
    intro v
    simp only [window, init_viewport, s1, t1]
  have hw : config.WIDTH = 300 := rfl
  have hh : config.HEIGHT = 300 := rfl
  refine ⟨rfl, rfl, rfl, ?_, ?_, ?_, ?_, ?_, ?_, ?_, ?_, by norm_num, ?_, ?_, ?_, ?_, hw, hh, ?_⟩
  · rw [h4, init_prog_calls config rfl]
    rfl
  · intro i hi
    rw [wx, wy]
    interval_cases i
    · rw [p00, p01, p03]
      norm_num
    · rw [p10, p11, p13]
      norm_num
    · rw [p20, p21, p23]
      norm_num
  · rw [wx, p00]
    norm_num
  · rw [wy, p01]
    norm_num
  · rw [wx, p10]
    norm_num
  · rw [wy, p11]
    norm_num
  · rw [wx, p20]
    norm_num
  · rw [wy, p21]
    norm_num
  · rw [hw]
    norm_num
  · rw [hh]
    norm_num
  · cases p
    rfl
  · cases p
    rfl
  · rw [wx, wy, wx, wy, wx, wy, p00, p01, p10, p11, p20, p21]
    norm_num [signed_area2]

/-- The vertex elements `init_prog` leaves in the struct, for any values of the
preprocessor constants. -/
theorem init_prog_velem (c : Config) (p : program) (n : Nat) :
    (init_prog c p n).val.velem 0 =
      { src_offset := 0, instance_divisor := 0, vertex_buffer_index := 0
        src_format := PIPE_FORMAT_R32G32B32A32_FLOAT } ∧
    (init_prog c p n).val.velem 1 =
      { src_offset := 16, instance_divisor := 0, vertex_buffer_index := 0
        src_format := PIPE_FORMAT_R32G32B32A32_FLOAT } := by
  obtain ⟨t, w, ht, nr, fr, fl⟩ := c
  cases t <;> cases fl <;> exact ⟨rfl, rfl⟩

/-- C6: the two vertex elements `init_prog` sets up have source offsets 0 and
16, both read 16 bytes (format `R32G32B32A32_FLOAT`) from vertex buffer 0 with
instance divisor 0; the byte ranges [0, 16) and [16, 32) are disjoint and end
at or before the stride of 32 bytes that the draw call's 2 attributes per
vertex give; the draw call fetches 3 vertices at offset 0 from the buffer
`init_prog` created; and for every vertex `i < 3` and element `e < 2` the range
[32 * i + 16 * e, 32 * i + 16 * e + 16) ends at or before `sizeof(vertices)`,
the byte size of that buffer. -/
theorem vertex_fetch_within_buffer (p : program) (n m : Nat) :
    ((init_prog config p n).val.velem 0).src_offset = 0 ∧
    ((init_prog config p n).val.velem 1).src_offset = 16 ∧
    (∀ e : Fin 2,
      format_size ((init_prog config p n).val.velem e).src_format = 16 ∧
      ((init_prog config p n).val.velem e).src_format = PIPE_FORMAT_R32G32B32A32_FLOAT ∧
      ((init_prog config p n).val.velem e).vertex_buffer_index = 0 ∧
      ((init_prog config p n).val.velem e).instance_divisor = 0 ∧
      ((init_prog config p n).val.velem e).src_offset = 16 * (e : Nat) ∧
      ((init_prog config p n).val.velem e).src_offset +
        format_size ((init_prog config p n).val.velem e).src_format ≤ vertex_stride 2) ∧
    ((init_prog config p n).val.velem 0).src_offset +
        format_size ((init_prog config p n).val.velem 0).src_format ≤
      ((init_prog config p n).val.velem 1).src_offset ∧
    draw_calls_of (draw (init_prog config p n).val m).calls =
      [((init_prog config p n).val.vbuf, 0, 3, 2)] ∧
    vertex_stride 2 = 32 ∧
    buffer_creates (init_prog config p n).calls =
      [((init_prog config p n).val.vbuf, sizeof_vertices)] ∧
    (∀ i : Nat, i < 3 → ∀ e : Fin 2,
      vertex_stride 2 * i + ((init_prog config p n).val.velem e).src_offset +
          format_size ((init_prog config p n).val.velem e).src_format ≤ sizeof_vertices ∧
      32 * i + 16 * (e : Nat) + 16 ≤ sizeof_vertices) := by
  obtain ⟨v0, v1⟩ := init_prog_velem config p n
  obtain ⟨-, -, -, h4, -⟩ := init_prog_handles config rfl p n
  refine ⟨by rw [v0], by rw [v1], ?_, ?_, ?_, rfl, ?_, ?_⟩
  · intro e
    fin_cases e
    · simp only [Fin.zero_eta, v0]
      decide
    · simp only [Fin.mk_one, v1]
      decide
  · rw [v0, v1]
    decide
  · rw [draw_calls]
    rfl
  · rw [h4, init_prog_calls config rfl]
    rfl
  · intro i hi e
    have hs : sizeof_vertices = 128 := rfl
    have hv : vertex_stride 2 = 32 := rfl
    rw [hs, hv]
    fin_cases e
    · simp only [Fin.zero_eta, v0]
      have : format_size PIPE_FORMAT_R32G32B32A32_FLOAT = 16 := rfl
      simp only [this, Fin.val_zero]
      omega
    · simp only [Fin.mk_one, v1]
      have : format_size PIPE_FORMAT_R32G32B32A32_FLOAT = 16 := rfl
      simp only [this, Fin.val_one]
      omega

end Tri
